import Mathlib

/-!
Verification of the escrow trade gateway (`server.js` and its unnamed variant)
against its natural-language specification.

JavaScript strings are modelled as lists of Unicode code points (`List Nat`);
byte-level operations (the `bytes32` encoding of trade identifiers) go through
an explicit UTF-8 encoder.  Response bodies are modelled as association lists
of JSON field names to JavaScript values, i.e. the object the code hands to
`res.json`, before serialization.
-/

namespace EscrowGateway

/-- JavaScript runtime values, as far as the gateway manipulates them. -/
inductive JSVal where
  | undef : JSVal
  | nullv : JSVal
  | nan : JSVal
  | bool : Bool → JSVal
  | num : Int → JSVal
  | str : String → JSVal
deriving DecidableEq

/-- JavaScript truthiness, used by `fileHash || "N/A"`. -/
def jsTruthy : JSVal → Bool
  | .undef => false
  | .nullv => false
  | .nan => false
  | .bool b => b
  | .num n => n != 0
  | .str s => s != ""

/-- The JavaScript `||` operator: the left operand if truthy, else the right. -/
def jsOr (a b : JSVal) : JSVal := if jsTruthy a then a else b

/-- UTF-8 encoding of one Unicode code point (`ethers.toUtf8Bytes` per char). -/
def utf8Bytes (c : Nat) : List Nat :=
  if c < 128 then [c]
  else if c < 2048 then [192 + c / 64, 128 + c % 64]
  else if c < 65536 then [224 + c / 4096, 128 + c / 64 % 64, 128 + c % 64]
  else [240 + c / 262144, 128 + c / 4096 % 64, 128 + c / 64 % 64, 128 + c % 64]

/-- UTF-8 encoding of a string (list of code points) as a byte list. -/
def utf8Encode (s : List Nat) : List Nat := s.flatMap utf8Bytes

/-- The UTF-8 byte length of a string: what `bytes.length` sees in ethers. -/
def byteLen (s : List Nat) : Nat := (utf8Encode s).length

/-- Lowercase hexadecimal digit as an ASCII code point. -/
def hexDigit (d : Nat) : Nat := if d < 10 then 48 + d else 87 + d

/-- Two lowercase hex code points for one byte (ethers `hexlify` style). -/
def hexOfByte (b : Nat) : List Nat := [hexDigit (b / 16), hexDigit (b % 16)]

/-- Render a byte list as a `0x`-prefixed lowercase hex string (code points). -/
def hexlify (bs : List Nat) : List Nat := 48 :: 120 :: bs.flatMap hexOfByte

/-- Right-pad a byte list with zero bytes to 32 bytes (`zeroPadBytes(bs, 32)`). -/
def zeroPad32 (bs : List Nat) : List Nat := bs ++ List.replicate (32 - bs.length) 0

/-- `ethers.encodeBytes32String`: UTF-8 encode, reject more than 31 bytes,
zero-pad to 32 bytes, return the hex rendering.  `none` models the thrown
`bytes32 string must be less than 32 bytes` error. -/
def encodeBytes32String (s : List Nat) : Option (List Nat) :=
  if (utf8Encode s).length > 31 then none
  else some (hexlify (zeroPad32 (utf8Encode s)))

/-- `formatId` from both gateway variants:
`(id) => (id.startsWith("0x") && id.length === 66) ? id : ethers.encodeBytes32String(id)`.
`48` and `120` are the code points of `0` and `x`. -/
def formatId (s : List Nat) : Option (List Nat) :=
  if s.take 2 = [48, 120] ∧ s.length = 66 then some s
  else encodeBytes32String s

/-- Decimal digits of `n` as ASCII code points, least significant first.
The first argument is fuel (structural recursion); `n` itself is enough fuel. -/
def natDigitsAux : Nat → Nat → List Nat
  | 0, _ => []
  | _ + 1, 0 => []
  | fuel + 1, n => (n % 10 + 48) :: natDigitsAux fuel (n / 10)

/-- Decimal rendering of a natural number, as JavaScript `toString` renders a
nonnegative bigint. -/
def natStr (n : Nat) : String :=
  if n = 0 then "0"
  else String.mk ((natDigitsAux n n).reverse.map Char.ofNat)

/-- Strip trailing `'0'` characters from a fraction, keeping at least one digit
(`ethers.formatUnits` keeps one fractional digit). -/
def stripFracZeros (l : List Char) : List Char :=
  match (l.reverse.dropWhile (· = '0')).reverse with
  | [] => ['0']
  | l => l

/-- The 18-digit zero-padded fraction of `f` wei below 1 ether. -/
def etherFrac (f : Nat) : List Char :=
  let ds := (natDigitsAux f f).reverse.map Char.ofNat
  List.replicate (18 - ds.length) '0' ++ ds

/-- `ethers.formatEther`: render an integer wei amount as a decimal string in
ether, 18 fractional digits with trailing zeros stripped, always showing a
decimal point (e.g. `formatEther 0 = "0.0"`). -/
def formatEther (wei : Nat) : String :=
  natStr (wei / 1000000000000000000) ++ "." ++
    String.mk (stripFracZeros (etherFrac (wei % 1000000000000000000)))

/-- The JavaScript `Number` conversion, restricted to the value shapes the
gateway feeds it: nonnegative decimal-integer strings convert to their value,
the empty string to `0`, any other string to `NaN`; bigints (modelled as
`num`) convert to themselves. -/
def jsNumberOf : JSVal → JSVal
  | .num n => .num n
  | .str s =>
      if s = "" then .num 0
      else if s.toList.all (fun c => 48 ≤ c.toNat && c.toNat ≤ 57) then
        .num (s.toList.foldl (fun a c => a * 10 + ((c.toNat : Int) - 48)) 0)
      else .nan
  | .bool b => .num (if b then 1 else 0)
  | .nullv => .num 0
  | .nan => .nan
  | .undef => .nan

/-- The tuple returned by the contract's `getTrade(bytes32)` view, in ABI
order: `(seller, buyer, amount, createdAt, fileHash, status)`.  Addresses are
hex strings, `amount`/`createdAt` are uint256, `status` the enum ordinal. -/
structure TradeTuple where
  seller : String
  buyer : String
  amount : Nat
  createdAt : Nat
  fileHash : String
  status : Nat
deriving DecidableEq

/-- The all-zero Ethereum address, the sentinel both variants compare against. -/
def zeroAddress : String := "0x0000000000000000000000000000000000000000"

/-- Modelled from the spec: the escrow contract itself is not part of the
sources, only its ABI is.  Its `getTrade` view reads a Solidity mapping, so an
identifier that was never created yields the default struct: zero addresses,
zero amounts, empty string, status ordinal 0 (which is why the gateway treats
a zero seller as "not found"). -/
def defaultTuple : TradeTuple :=
  { seller := zeroAddress, buyer := zeroAddress, amount := 0, createdAt := 0
    fileHash := "", status := 0 }

/-- The settlement backend's trade store: `none` for identifiers never
created.  `chainGetTrade` is what the contract's `getTrade` answers. -/
def chainGetTrade (store : List Nat → Option TradeTuple) (id : List Nat) :
    TradeTuple :=
  (store id).getD defaultTuple

/-- An HTTP response as the gateway builds it: status code plus the object
passed to `res.json`, as a field-name/value association list. -/
structure HttpResponse where
  status : Nat
  body : List (String × JSVal)
deriving DecidableEq

/-- The state-changing contract invocations the gateway can issue. -/
inductive ContractCall where
  | createTrade (id : List Nat) (buyer : JSVal) (amountWei : Nat) (fileHash : JSVal)
  | deposit (id : List Nat) (valueWei : Nat)
  | confirmReceived (id : List Nat)
  | raiseDispute (id : List Nat)
  | refundAll (id : List Nat)
  | resolveDispute (id : List Nat) (recipient : String) (amount : Nat)
deriving DecidableEq

/-- Decimal digit test on a character. -/
def isDigit (c : Char) : Bool := 48 ≤ c.toNat && c.toNat ≤ 57

/-- Value of a list of decimal digit characters, most significant first. -/
def digitsToNat (l : List Char) : Nat :=
  l.foldl (fun a c => a * 10 + (c.toNat - 48)) 0

/-- Modelled collaborator: `ethers.parseEther` parses a decimal string (an
integer part, optionally a point and at most 18 fraction digits) into wei;
anything else throws (`none`).  Negative amounts are outside the model. -/
def parseEther (s : String) : Option Nat :=
  match s.toList.splitOn '.' with
  | [ip] =>
      if ip ≠ [] ∧ ip.all isDigit then some (digitsToNat ip * 10 ^ 18) else none
  | [ip, fp] =>
      if ip ≠ [] ∧ ip.all isDigit ∧ fp ≠ [] ∧ fp.all isDigit ∧ fp.length ≤ 18 then
        some (digitsToNat ip * 10 ^ 18 + digitsToNat fp * 10 ^ (18 - fp.length))
      else none
  | _ => none

/-- JavaScript `x.toString()`: throws on `undefined` and `null` (`none`). -/
def jsToString : JSVal → Option String
  | .undef => none
  | .nullv => none
  | .nan => some "NaN"
  | .bool b => some (if b then "true" else "false")
  | .num n => some (if n < 0 then "-" ++ natStr n.natAbs else natStr n.natAbs)
  | .str s => some s

/-- The `POST /createTrade` handler, identical in both variants: format the
id, parse the price, call `createTrade(id, buyer, priceWei, fileHash || "N/A")`
and answer `{ok: true, txHash}`.  `none` is the catch path (a thrown
formatting or parsing error). -/
def createTradeHandler (tradeId : List Nat) (buyer priceETH fileHash : JSVal)
    (txHash : String) : Option (ContractCall × HttpResponse) :=
  match formatId tradeId with
  | none => none
  | some id =>
    match jsToString priceETH with
    | none => none
    | some ps =>
      match parseEther ps with
      | none => none
      | some priceWei =>
          some (ContractCall.createTrade id buyer priceWei
                  (jsOr fileHash (.str "N/A")),
                { status := 200
                  body := [("ok", .bool true), ("txHash", .str txHash)] })

/-- `GET /getTrade/:id` in `server.js`: positional access into the result
tuple.  In ABI order positions 3, 4, 5 hold `createdAt`, `fileHash`,
`status`, and the handler assigns `result[3]` to the JSON `fileHash` field,
`Number(result[4])` to `status` and `result[5].toString()` to `createdAt`.
A thrown formatting error lands in the catch block, a 500 with this
variant's fixed message. -/
def getTradeServer (store : List Nat → Option TradeTuple) (idParam : List Nat) :
    HttpResponse :=
  match formatId idParam with
  | none =>
      { status := 500, body := [("ok", .bool false), ("error", .str "讀取合約失敗")] }
  | some id =>
    let r := chainGetTrade store id
    if r.seller = zeroAddress then
      { status := 404
        body := [("ok", .bool false),
                 ("error", .str "查無此交易 ID，請確認是否輸入正確。")] }
    else
      { status := 200
        body := [("ok", .bool true), ("seller", .str r.seller),
                 ("buyer", .str r.buyer),
                 ("amountETH", .str (formatEther r.amount)),
                 ("fileHash", .num (r.createdAt : Int)),
                 ("status", jsNumberOf (.str r.fileHash)),
                 ("createdAt", .str (natStr r.status))] }

/-- Modelled collaborator: the message of the error thrown by
`ethers.encodeBytes32String` on an over-long identifier. -/
def bytes32ErrorMessage : String := "bytes32 string must be less than 32 bytes"

/-- `GET /getTrade/:id` in the unnamed variant: named access into the result
tuple (`result.seller`, ..., `result.status`), so every JSON field comes from
the same-named tuple component.  Its catch path reports the thrown message. -/
def getTradePart000 (store : List Nat → Option TradeTuple)
    (idParam : List Nat) : HttpResponse :=
  match formatId idParam with
  | none =>
      { status := 500
        body := [("ok", .bool false), ("error", .str bytes32ErrorMessage)] }
  | some id =>
    let r := chainGetTrade store id
    if r.seller = zeroAddress then
      { status := 404
        body := [("ok", .bool false), ("error", .str "查無此交易 ID")] }
    else
      { status := 200
        body := [("ok", .bool true), ("seller", .str r.seller),
                 ("buyer", .str r.buyer),
                 ("amountETH", .str (formatEther r.amount)),
                 ("fileHash", .str r.fileHash),
                 ("status", jsNumberOf (.num (r.status : Int))),
                 ("createdAt", .str (natStr r.createdAt))] }

/-- The dispatch at the heart of `POST /resolveDispute`, identical in both
variants: strict equality `resolution === 1` picks `refundAll`; any other
value reads the trade and calls `resolveDispute(id, seller, amount)` with the
stored seller and current stored amount. -/
def resolveDisputeCallOf (store : List Nat → Option TradeTuple)
    (id : List Nat) (resolution : JSVal) : ContractCall :=
  if resolution = JSVal.num 1 then ContractCall.refundAll id
  else
    ContractCall.resolveDispute id (chainGetTrade store id).seller
      (chainGetTrade store id).amount

/-- The `POST /resolveDispute` handler: format the id, dispatch on
`resolution`, await the transaction and answer `{ok: true, txHash}`; `none`
is the catch path (a thrown formatting error). -/
def resolveDisputeHandler (store : List Nat → Option TradeTuple)
    (tradeId : List Nat) (resolution : JSVal) (txHash : String) :
    Option (ContractCall × HttpResponse) :=
  (formatId tradeId).map fun id =>
    (resolveDisputeCallOf store id resolution,
     { status := 200, body := [("ok", .bool true), ("txHash", .str txHash)] })

/-- Modelled from the spec: the escrow contract's trade status enumeration
(the contract source is not among the sources, only its ABI). -/
inductive EscrowStatus where
  | created | funded | shipped | completed | disputed | resolved | refunded
deriving DecidableEq

/-- Modelled from the spec: the per-trade state the lifecycle machine
manages.  `paidOut` is the running total of value ever released for the
trade, a ghost field used to state the conservation property. -/
structure TradeState where
  amount : Nat
  escrowBalance : Nat
  status : EscrowStatus
  paidOut : Nat
deriving DecidableEq

/-- Modelled from the spec: the transition table of the trade lifecycle
(spec section 4.1).  `resolveDispute` pays `split` to the recipient and, per
the recommended remainder policy, the rest of the escrow to the seller, so
the whole escrow is released. -/
inductive EscrowStep : TradeState → TradeState → Prop where
  | deposit (t : TradeState) (v : Nat) :
      t.status = .created → v = t.amount →
      EscrowStep t { t with escrowBalance := t.escrowBalance + v, status := .funded }
  | markShipped (t : TradeState) :
      t.status = .funded →
      EscrowStep t { t with status := .shipped }
  | confirmReceived (t : TradeState) :
      (t.status = .funded ∨ t.status = .shipped) → t.escrowBalance = t.amount →
      EscrowStep t { t with escrowBalance := 0, status := .completed,
                            paidOut := t.paidOut + t.escrowBalance }
  | raiseDispute (t : TradeState) :
      (t.status = .funded ∨ t.status = .shipped) → t.escrowBalance = t.amount →
      EscrowStep t { t with status := .disputed }
  | resolveDispute (t : TradeState) (split : Nat) :
      t.status = .disputed → split ≤ t.escrowBalance →
      EscrowStep t { t with escrowBalance := 0, status := .resolved,
                            paidOut := t.paidOut + t.escrowBalance }
  | refundAll (t : TradeState) :
      (t.status = .disputed ∨ t.status = .funded ∨ t.status = .shipped) →
      0 < t.escrowBalance →
      EscrowStep t { t with escrowBalance := 0, status := .refunded,
                            paidOut := t.paidOut + t.escrowBalance }

/-- Modelled from the spec: the states reachable by `createTrade` followed by
any valid sequence of transitions of the table. -/
inductive EscrowReachable : TradeState → Prop where
  | create (amount : Nat) :
      EscrowReachable { amount := amount, escrowBalance := 0,
                        status := .created, paidOut := 0 }
  | step {t u : TradeState} :
      EscrowReachable t → EscrowStep t u → EscrowReachable u

/-- Continuation of the UTF-8 decoder after a two-byte lead. -/
def utf8DecTwo (k : List Nat → Option (List Nat)) (b0 : Nat) :
    List Nat → Option (List Nat)
  | b1 :: rest => (k rest).map (((b0 - 192) * 64 + (b1 - 128)) :: ·)
  | [] => none

/-- Continuation of the UTF-8 decoder after a three-byte lead. -/
def utf8DecThree (k : List Nat → Option (List Nat)) (b0 : Nat) :
    List Nat → Option (List Nat)
  | b1 :: b2 :: rest =>
      (k rest).map (((b0 - 224) * 4096 + (b1 - 128) * 64 + (b2 - 128)) :: ·)
  | _ => none

/-- Continuation of the UTF-8 decoder after a four-byte lead. -/
def utf8DecFour (k : List Nat → Option (List Nat)) (b0 : Nat) :
    List Nat → Option (List Nat)
  | b1 :: b2 :: b3 :: rest =>
      (k rest).map
        (((b0 - 240) * 262144 + (b1 - 128) * 4096 + (b2 - 128) * 64
            + (b3 - 128)) :: ·)
  | _ => none

/-- Fuel-indexed UTF-8 decoder; one unit of fuel per decoded code point. -/
def utf8DecAux : Nat → List Nat → Option (List Nat)
  | _, [] => some []
  | 0, _ :: _ => none
  | fuel + 1, b0 :: rest =>
    if b0 < 128 then (utf8DecAux fuel rest).map (b0 :: ·)
    else if b0 < 224 then utf8DecTwo (utf8DecAux fuel) b0 rest
    else if b0 < 240 then utf8DecThree (utf8DecAux fuel) b0 rest
    else utf8DecFour (utf8DecAux fuel) b0 rest

/-- Left inverse of `utf8Encode`, used to establish injectivity of the
identifier encoding.  The byte count bounds the code-point count, so it is
enough fuel. -/
def utf8Dec (bs : List Nat) : Option (List Nat) := utf8DecAux bs.length bs

/-- The canonical encoding of the sample id `"t1"` (`0x7431` zero-padded),
as code points. -/
def sampleId : List Nat := [48, 120, 55, 52, 51, 49] ++ List.replicate 60 48

/-- A sample existing trade: created with buyer B, amount 1000 base units,
contentRef `"h1"`, status `Created` (ordinal 0). -/
def sampleTrade : TradeTuple :=
  { seller := "0x1111111111111111111111111111111111111111"
    buyer := "0x2222222222222222222222222222222222222222"
    amount := 1000, createdAt := 1700000000, fileHash := "h1", status := 0 }

/-- A backend in which every identifier resolves to `sampleTrade`. -/
def sampleStore : List Nat → Option TradeTuple := fun _ => some sampleTrade

/-- A stored trade whose seller happens to be the all-zero address. -/
def zeroSellerTrade : TradeTuple :=
  { seller := zeroAddress
    buyer := "0x2222222222222222222222222222222222222222"
    amount := 7, createdAt := 3, fileHash := "h", status := 1 }

/-- A backend in which every identifier resolves to `zeroSellerTrade`. -/
def zeroSellerStore : List Nat → Option TradeTuple := fun _ => some zeroSellerTrade

/-- A funded sample state of the spec state machine: amount 5 deposited. -/
def fundedSample : TradeState :=
  { amount := 5, escrowBalance := 5, status := .funded, paidOut := 0 }

/-- The inductive invariant of the escrow machine: the escrow balance and
the running payout total, by status. -/
def escrowInv (t : TradeState) : Prop :=
  match t.status with
  | .created => t.escrowBalance = 0 ∧ t.paidOut = 0
  | .funded => t.escrowBalance = t.amount ∧ t.paidOut = 0
  | .shipped => t.escrowBalance = t.amount ∧ t.paidOut = 0
  | .disputed => t.escrowBalance = t.amount ∧ t.paidOut = 0
  | .completed => t.escrowBalance = 0 ∧ t.paidOut ≤ t.amount
  | .resolved => t.escrowBalance = 0 ∧ t.paidOut ≤ t.amount
  | .refunded => t.escrowBalance = 0 ∧ t.paidOut ≤ t.amount

/-- The spec's machine-readable error taxonomy. -/
def errorCategories : List String :=
  ["ValidationError", "NotFound", "Conflict", "Unauthorized",
   "InvalidTransition", "SettlementFailure", "BackendUnavailable"]

/-- Whether any field of the response body carries one of the taxonomy's
category names. -/
def mentionsCategory (r : HttpResponse) : Bool :=
  r.body.any fun p =>
    match p.2 with
    | .str s => errorCategories.contains s
    | _ => false

/-- Whether the response body's `error` field holds a plain string. -/
def hasStringError (r : HttpResponse) : Bool :=
  match r.body.lookup "error" with
  | some (.str _) => true
  | _ => false

/-- The catch block shared by every POST route in both variants:
`res.status(500).json({ ok: false, error: e.message })` with the thrown
message. -/
def catchResponse (msg : String) : HttpResponse :=
  { status := 500, body := [("ok", .bool false), ("error", .str msg)] }

/-- Modelled collaborator: the message of the TypeError thrown by calling
`.toString()` on `undefined` or `null`. -/
def toStringUndefinedMessage : String :=
  "Cannot read properties of undefined"

/-- Modelled collaborator: the message `ethers.parseEther` throws on an
invalid decimal string. -/
def parseEtherErrorMessage : String := "invalid decimal string"

/-- The success response every POST route returns: `{ok: true, txHash}`. -/
def txSuccessResponse (txHash : String) : HttpResponse :=
  { status := 200, body := [("ok", .bool true), ("txHash", .str txHash)] }

/-- The `POST /createTrade` route, full behavior of both variants: format
the id, stringify and parse the price, issue the contract call (the call
built is `createTradeHandler`'s) and await it; any thrown error — id
formatting, price parsing, or the backend interaction itself (`txr`, with
its raw message) — lands in the shared catch block's 500. -/
def createTradeRoute (tradeId : List Nat) (priceETH : JSVal)
    (txr : Except String String) : HttpResponse :=
  match formatId tradeId with
  | none => catchResponse bytes32ErrorMessage
  | some _ =>
    match jsToString priceETH with
    | none => catchResponse toStringUndefinedMessage
    | some ps =>
      match parseEther ps with
      | none => catchResponse parseEtherErrorMessage
      | some _ =>
        match txr with
        | .error m => catchResponse m
        | .ok h => txSuccessResponse h

/-- The `POST /deposit` route, full behavior of both variants: format the
id, parse the price into the transaction value, send `deposit`; throws land
in the shared catch block. -/
def depositRoute (tradeId : List Nat) (priceETH : JSVal)
    (txr : Except String String) : HttpResponse :=
  match formatId tradeId with
  | none => catchResponse bytes32ErrorMessage
  | some _ =>
    match jsToString priceETH with
    | none => catchResponse toStringUndefinedMessage
    | some ps =>
      match parseEther ps with
      | none => catchResponse parseEtherErrorMessage
      | some _ =>
        match txr with
        | .error m => catchResponse m
        | .ok h => txSuccessResponse h

/-- The `POST /confirm` route, full behavior of both variants: format the
id, send `confirmReceived`; throws land in the shared catch block. -/
def confirmRoute (tradeId : List Nat) (txr : Except String String) :
    HttpResponse :=
  match formatId tradeId with
  | none => catchResponse bytes32ErrorMessage
  | some _ =>
    match txr with
    | .error m => catchResponse m
    | .ok h => txSuccessResponse h

/-- The `POST /dispute` route, full behavior of both variants: format the
id, send `raiseDispute`; throws land in the shared catch block. -/
def disputeRoute (tradeId : List Nat) (txr : Except String String) :
    HttpResponse :=
  match formatId tradeId with
  | none => catchResponse bytes32ErrorMessage
  | some _ =>
    match txr with
    | .error m => catchResponse m
    | .ok h => txSuccessResponse h

/-- The `POST /resolveDispute` route, full behavior of both variants: format
the id, dispatch on the resolution (the contract calls issued are
`resolveDisputeHandler`'s) and await; a throw anywhere in the backend
interaction — the `getTrade` read of the seller branch or the transaction —
lands in the shared catch block with its raw message (`txr`). -/
def resolveDisputeRoute (tradeId : List Nat) (_resolution : JSVal)
    (txr : Except String String) : HttpResponse :=
  match formatId tradeId with
  | none => catchResponse bytes32ErrorMessage
  | some _ =>
    match txr with
    | .error m => catchResponse m
    | .ok h => txSuccessResponse h

/-- A failure body of the shape every catch block produces: exactly the
fields `ok` (false) and `error` (a plain string), nothing else — in
particular no dedicated category field. -/
def bareFailure (r : HttpResponse) : Prop :=
  r.body.map Prod.fst = ["ok", "error"] ∧
  r.body.lookup "ok" = some (JSVal.bool false) ∧
  hasStringError r = true

theorem length_flatMap_hexOfByte (l : List Nat) :
    (l.flatMap hexOfByte).length = 2 * l.length := by
  induction l with
  | nil => rfl
  | cons b t ih => simp [List.flatMap_cons, hexOfByte, ih]; omega

theorem zeroPad32_length (bs : List Nat) (h : bs.length ≤ 32) :
    (zeroPad32 bs).length = 32 := by
  simp [zeroPad32]; omega

theorem utf8Bytes_length_pos (c : Nat) : 1 ≤ (utf8Bytes c).length := by
  unfold utf8Bytes
  split_ifs <;> simp

theorem length_le_utf8Encode (s : List Nat) :
    s.length ≤ (utf8Encode s).length := by
  induction s with
  | nil => simp [utf8Encode]
  | cons c t ih =>
    have h1 := utf8Bytes_length_pos c
    simp only [utf8Encode, List.flatMap_cons, List.length_append,
      List.length_cons] at *
    omega

theorem utf8DecAux_append (fuel c : Nat) (bs : List Nat) (hc : c < 1114112) :
    utf8DecAux (fuel + 1) (utf8Bytes c ++ bs)
      = (utf8DecAux fuel bs).map (c :: ·) := by
  by_cases h1 : c < 128
  · simp only [utf8Bytes, if_pos h1, List.cons_append, List.nil_append,
      utf8DecAux, if_pos h1]
  · by_cases h2 : c < 2048
    · have e1 : ¬ (192 + c / 64 < 128) := by omega
      have e2 : 192 + c / 64 < 224 := by omega
      have e3 : (192 + c / 64 - 192) * 64 + (128 + c % 64 - 128) = c := by omega
      simp only [utf8Bytes, if_neg h1, if_pos h2, List.cons_append,
        List.nil_append, utf8DecAux, if_neg e1, if_pos e2, utf8DecTwo, e3]
    · by_cases h3 : c < 65536
      · have e1 : ¬ (224 + c / 4096 < 128) := by omega
        have e2 : ¬ (224 + c / 4096 < 224) := by omega
        have e3 : 224 + c / 4096 < 240 := by omega
        have e4 : (224 + c / 4096 - 224) * 4096
            + (128 + c / 64 % 64 - 128) * 64 + (128 + c % 64 - 128) = c := by
          omega
        simp only [utf8Bytes, if_neg h1, if_neg h2, if_pos h3,
          List.cons_append, List.nil_append, utf8DecAux, if_neg e1, if_neg e2,
          if_pos e3, utf8DecThree, e4]
      · have e1 : ¬ (240 + c / 262144 < 128) := by omega
        have e2 : ¬ (240 + c / 262144 < 224) := by omega
        have e3 : ¬ (240 + c / 262144 < 240) := by omega
        have e4 : (240 + c / 262144 - 240) * 262144
            + (128 + c / 4096 % 64 - 128) * 4096
            + (128 + c / 64 % 64 - 128) * 64 + (128 + c % 64 - 128) = c := by
          omega
        simp only [utf8Bytes, if_neg h1, if_neg h2, if_neg h3,
          List.cons_append, List.nil_append, utf8DecAux, if_neg e1, if_neg e2,
          if_neg e3, utf8DecFour, e4]

theorem utf8DecAux_encode (s : List Nat) :
    ∀ fuel, (∀ c ∈ s, c < 1114112) → s.length ≤ fuel →
      utf8DecAux fuel (utf8Encode s) = some s := by
  induction s with
  | nil =>
    intro fuel _ _
    cases fuel <;> rfl
  | cons c t ih =>
    intro fuel h hl
    cases fuel with
    | zero => simp at hl
    | succ f =>
      have hc : c < 1114112 := h c (List.mem_cons_self c t)
      have ht : ∀ x ∈ t, x < 1114112 :=
        fun x hx => h x (List.mem_cons_of_mem _ hx)
      have hlf : t.length ≤ f := by
        simp only [List.length_cons] at hl
        omega
      have hrec := ih f ht hlf
      simp only [utf8Encode] at hrec ⊢
      simp only [List.flatMap_cons]
      rw [utf8DecAux_append f c _ hc, hrec]
      rfl

theorem utf8Dec_encode (s : List Nat) (h : ∀ c ∈ s, c < 1114112) :
    utf8Dec (utf8Encode s) = some s :=
  utf8DecAux_encode s _ h (length_le_utf8Encode s)

theorem utf8Encode_inj (s1 s2 : List Nat) (h1 : ∀ c ∈ s1, c < 1114112)
    (h2 : ∀ c ∈ s2, c < 1114112) (he : utf8Encode s1 = utf8Encode s2) :
    s1 = s2 := by
  have d1 := utf8Dec_encode s1 h1
  have d2 := utf8Dec_encode s2 h2
  rw [he, d2] at d1
  exact (Option.some_injective _ d1).symm


theorem padZeros_inj : ∀ (a b : List Nat) (m n : Nat),
    a ++ List.replicate m 0 = b ++ List.replicate n 0 →
    a.getLast? ≠ some 0 → b.getLast? ≠ some 0 → a = b := by
  intro a
  induction a with
  | nil =>
    intro b m n he _ hb
    simp only [List.nil_append] at he
    have hbtake : List.take b.length (b ++ List.replicate n 0) = b :=
      List.take_left b _
    rw [← he, List.take_replicate, inf_eq_min] at hbtake
    rcases Nat.eq_zero_or_pos (min b.length m) with h0 | hpos
    · rw [h0] at hbtake
      simpa using hbtake.symm
    · exfalso
      apply hb
      rw [← hbtake, List.getLast?_replicate]
      rw [if_neg (by omega)]
  | cons x a2 ih =>
    intro b m n he ha hb
    cases b with
    | nil =>
      exfalso
      simp only [List.nil_append] at he
      have hlen : a2.length + 1 + m = n := by
        have := congrArg List.length he
        simp only [List.length_append, List.length_replicate,
          List.length_cons] at this
        omega
      have hatake : List.take (x :: a2).length ((x :: a2) ++ List.replicate m 0)
          = x :: a2 := List.take_left _ _
      rw [he, List.take_replicate, inf_eq_min] at hatake
      apply ha
      rw [← hatake, List.getLast?_replicate]
      rw [if_neg (by simp only [List.length_cons]; omega)]
    | cons y b2 =>
      simp only [List.cons_append, List.cons.injEq] at he
      obtain ⟨hxy, he2⟩ := he
      subst hxy
      have ha2 : a2.getLast? ≠ some 0 := by
        cases a2 with
        | nil => simp
        | cons z a3 => rw [List.getLast?_cons_cons] at ha; exact ha
      have hb2 : b2.getLast? ≠ some 0 := by
        cases b2 with
        | nil => simp
        | cons w b3 => rw [List.getLast?_cons_cons] at hb; exact hb
      rw [ih b2 m n he2 ha2 hb2]


theorem hexDigit_inj (x y : Nat) (hx : x < 16) (hy : y < 16)
    (h : hexDigit x = hexDigit y) : x = y := by
  unfold hexDigit at h
  split_ifs at h <;> omega

theorem flatMap_hexOfByte_inj : ∀ (p q : List Nat), (∀ x ∈ p, x < 256) →
    (∀ x ∈ q, x < 256) → p.flatMap hexOfByte = q.flatMap hexOfByte → p = q := by
  intro p
  induction p with
  | nil =>
    intro q _ _ h
    cases q with
    | nil => rfl
    | cons y q2 => simp [hexOfByte, List.flatMap_cons] at h
  | cons x p2 ih =>
    intro q hp hq h
    cases q with
    | nil => simp [hexOfByte, List.flatMap_cons] at h
    | cons y q2 =>
      simp only [List.flatMap_cons, hexOfByte, List.cons_append,
        List.nil_append, List.cons.injEq] at h
      obtain ⟨h1, h2, h3⟩ := h
      have hx : x < 256 := hp x (List.mem_cons_self x p2)
      have hy : y < 256 := hq y (List.mem_cons_self y q2)
      have e1 : x / 16 = y / 16 :=
        hexDigit_inj _ _ (by omega) (by omega) h1
      have e2 : x % 16 = y % 16 :=
        hexDigit_inj _ _ (by omega) (by omega) h2
      have hxy : x = y := by omega
      subst hxy
      rw [ih q2 (fun z hz => hp z (List.mem_cons_of_mem _ hz))
        (fun z hz => hq z (List.mem_cons_of_mem _ hz)) h3]

theorem utf8Bytes_lt_256 (c : Nat) (hc : c < 1114112) :
    ∀ b ∈ utf8Bytes c, b < 256 := by
  intro b hb
  unfold utf8Bytes at hb
  split_ifs at hb <;>
    simp only [List.mem_cons, List.not_mem_nil, or_false] at hb <;> omega


theorem utf8Encode_lt_256 (s : List Nat) (hv : ∀ c ∈ s, c < 1114112) :
    ∀ b ∈ utf8Encode s, b < 256 := by
  intro b hb
  rw [utf8Encode, List.mem_flatMap] at hb
  obtain ⟨c, hc, hbc⟩ := hb
  exact utf8Bytes_lt_256 c (hv c hc) b hbc

theorem zeroPad32_lt_256 (bs : List Nat) (h : ∀ b ∈ bs, b < 256) :
    ∀ b ∈ zeroPad32 bs, b < 256 := by
  intro b hb
  rw [zeroPad32, List.mem_append] at hb
  rcases hb with hb | hb
  · exact h b hb
  · rw [List.eq_of_mem_replicate hb]
    omega

theorem hexlify_zeroPad32_canonical (bs : List Nat) (h : bs.length ≤ 31) :
    (hexlify (zeroPad32 bs)).take 2 = [48, 120] ∧
      (hexlify (zeroPad32 bs)).length = 66 := by
  constructor
  · simp [hexlify]
  · simp only [hexlify, List.length_cons, length_flatMap_hexOfByte,
      zeroPad32_length bs (by omega)]

/-- C6: the TradeId canonicalization `formatId` is idempotent; an
already-canonical id (starting `0x`, 66 characters) passes through unchanged,
and the encoding of a short id is itself already canonical. -/
theorem formatId_idempotent :
    (∀ s t : List Nat, formatId s = some t → formatId t = some t) ∧
    (∀ s : List Nat, s.take 2 = [48, 120] → s.length = 66 →
      formatId s = some s) := by
  constructor
  · intro s t h
    rw [formatId] at h
    by_cases hc : s.take 2 = [48, 120] ∧ s.length = 66
    · rw [if_pos hc] at h
      obtain rfl : s = t := Option.some_injective _ h
      rw [formatId, if_pos hc]
    · rw [if_neg hc, encodeBytes32String] at h
      by_cases hl : (utf8Encode s).length > 31
      · rw [if_pos hl] at h
        exact absurd h (by simp)
      · rw [if_neg hl] at h
        obtain rfl : hexlify (zeroPad32 (utf8Encode s)) = t :=
          Option.some_injective _ h
        have hcan := hexlify_zeroPad32_canonical (utf8Encode s) (by omega)
        rw [formatId, if_pos hcan]
  · intro s h1 h2
    rw [formatId, if_pos ⟨h1, h2⟩]

/-- Witness for C6: a concrete canonical id and a concrete short id. -/
theorem formatId_idempotent_witness :
    formatId (48 :: 120 :: List.replicate 64 48)
        = some (48 :: 120 :: List.replicate 64 48) ∧
      formatId (hexlify (zeroPad32 [97])) = some (hexlify (zeroPad32 [97])) :=
  ⟨formatId_idempotent.2 _ (by decide) (by decide),
   formatId_idempotent.1 [97] _ (by decide)⟩

/-- C7 counterexample: two distinct strings, both shorter than 32 bytes
(`"ab"` and `"ab\u0000"`), have the same canonical encoding, so `formatId`
is not injective on strings shorter than the width. -/
theorem formatId_collision_cex :
    ([97, 98] : List Nat) ≠ [97, 98, 0] ∧
      byteLen [97, 98] < 32 ∧ byteLen [97, 98, 0] < 32 ∧
      formatId [97, 98] = formatId [97, 98, 0] := by decide

/-- C7 amended: `formatId` is total on strings shorter than 32 bytes, and
injective on those whose UTF-8 encoding does not end in a zero byte (the
zero-padding makes a string and the same string with trailing NULs
collide). -/
theorem formatId_total_injective_amended :
    ∀ s1 s2 : List Nat, (∀ c ∈ s1, c < 1114112) → (∀ c ∈ s2, c < 1114112) →
    byteLen s1 < 32 → byteLen s2 < 32 →
    (∃ t, formatId s1 = some t) ∧
    ((utf8Encode s1).getLast? ≠ some 0 → (utf8Encode s2).getLast? ≠ some 0 →
      formatId s1 = formatId s2 → s1 = s2) := by
  intro s1 s2 hv1 hv2 hb1 hb2
  rw [byteLen] at hb1 hb2
  constructor
  · by_cases hc : s1.take 2 = [48, 120] ∧ s1.length = 66
    · exact ⟨s1, by rw [formatId, if_pos hc]⟩
    · refine ⟨hexlify (zeroPad32 (utf8Encode s1)), ?_⟩
      rw [formatId, if_neg hc, encodeBytes32String, if_neg (by omega)]
  · intro hl1 hl2 he
    have hnc1 : ¬ (s1.take 2 = [48, 120] ∧ s1.length = 66) := by
      rintro ⟨-, hlen⟩
      have := length_le_utf8Encode s1
      omega
    have hnc2 : ¬ (s2.take 2 = [48, 120] ∧ s2.length = 66) := by
      rintro ⟨-, hlen⟩
      have := length_le_utf8Encode s2
      omega
    rw [formatId, if_neg hnc1, formatId, if_neg hnc2, encodeBytes32String,
      if_neg (by omega), encodeBytes32String, if_neg (by omega)] at he
    have hx := Option.some_injective _ he
    simp only [hexlify, List.cons.injEq, true_and] at hx
    have hpad := flatMap_hexOfByte_inj _ _
      (zeroPad32_lt_256 _ (utf8Encode_lt_256 s1 hv1))
      (zeroPad32_lt_256 _ (utf8Encode_lt_256 s2 hv2)) hx
    rw [zeroPad32, zeroPad32] at hpad
    have henc := padZeros_inj _ _ _ _ hpad hl1 hl2
    exact utf8Encode_inj s1 s2 hv1 hv2 henc

/-- Witness for C7 amended, at `"a"` and `"b"`. -/
theorem formatId_total_injective_amended_witness :
    (∃ t, formatId [97] = some t) ∧
      ((utf8Encode [97]).getLast? ≠ some 0 →
        (utf8Encode [98]).getLast? ≠ some 0 →
        formatId [97] = formatId [98] → [97] = [98]) :=
  formatId_total_injective_amended [97] [98] (by decide) (by decide)
    (by decide) (by decide)


theorem escrowInv_step {t u : TradeState} (hs : EscrowStep t u)
    (hi : escrowInv t) : escrowInv u := by
  cases hs with
  | deposit v h1 h2 =>
    simp only [escrowInv, h1] at hi
    simp [escrowInv]
    omega
  | markShipped h1 =>
    simp only [escrowInv, h1] at hi
    simp [escrowInv]
    omega
  | confirmReceived h1 h2 =>
    rcases h1 with h1 | h1 <;> simp only [escrowInv, h1] at hi <;>
      simp [escrowInv] <;> omega
  | raiseDispute h1 h2 =>
    rcases h1 with h1 | h1 <;> simp only [escrowInv, h1] at hi <;>
      simp [escrowInv] <;> omega
  | resolveDispute split h1 h2 =>
    simp only [escrowInv, h1] at hi
    simp [escrowInv]
    omega
  | refundAll h1 h2 =>
    rcases h1 with h1 | h1 | h1 <;> simp only [escrowInv, h1] at hi <;>
      simp [escrowInv] <;> omega

theorem escrow_reachable_inv {t : TradeState} (h : EscrowReachable t) :
    escrowInv t := by
  induction h with
  | create amount => simp [escrowInv]
  | step hr hs ih => exact escrowInv_step hs ih

/-- C5: in every state reachable by a valid transition sequence of the
lifecycle table, the escrow balance is either 0 or exactly `amount` — 0 in
states Created, Completed, Resolved, Refunded and `amount` in states
Funded, Shipped, Disputed — and the total value ever paid out never exceeds
`amount`. -/
theorem escrow_balance_invariant :
    ∀ t : TradeState, EscrowReachable t →
    (t.escrowBalance = 0 ∨ t.escrowBalance = t.amount) ∧
    ((t.status = .created ∨ t.status = .completed ∨ t.status = .resolved ∨
        t.status = .refunded) → t.escrowBalance = 0) ∧
    ((t.status = .funded ∨ t.status = .shipped ∨ t.status = .disputed) →
      t.escrowBalance = t.amount) ∧
    t.paidOut ≤ t.amount := by
  intro t ht
  have hi := escrow_reachable_inv ht
  cases hst : t.status <;> simp only [escrowInv, hst] at hi <;>
    simp only [hst]
  case created => exact ⟨Or.inl hi.1, fun _ => hi.1, by simp, by omega⟩
  case funded => exact ⟨Or.inr hi.1, by simp, fun _ => hi.1, by omega⟩
  case shipped => exact ⟨Or.inr hi.1, by simp, fun _ => hi.1, by omega⟩
  case completed => exact ⟨Or.inl hi.1, fun _ => hi.1, by simp, by omega⟩
  case disputed => exact ⟨Or.inr hi.1, by simp, fun _ => hi.1, by omega⟩
  case resolved => exact ⟨Or.inl hi.1, fun _ => hi.1, by simp, by omega⟩
  case refunded => exact ⟨Or.inl hi.1, fun _ => hi.1, by simp, by omega⟩

/-- Witness for C5 at a concrete reachable state: `createTrade` with amount
5 followed by `deposit(5)`. -/
theorem escrow_balance_invariant_witness :
    (fundedSample.escrowBalance = 0 ∨
        fundedSample.escrowBalance = fundedSample.amount) ∧
    ((fundedSample.status = .created ∨ fundedSample.status = .completed ∨
        fundedSample.status = .resolved ∨ fundedSample.status = .refunded) →
      fundedSample.escrowBalance = 0) ∧
    ((fundedSample.status = .funded ∨ fundedSample.status = .shipped ∨
        fundedSample.status = .disputed) →
      fundedSample.escrowBalance = fundedSample.amount) ∧
    fundedSample.paidOut ≤ fundedSample.amount :=
  escrow_balance_invariant fundedSample
    (EscrowReachable.step (EscrowReachable.create 5)
      (EscrowStep.deposit _ 5 rfl rfl))


/-- C1: `POST /resolveDispute {tradeId, resolution}` — when `resolution`
equals the number 1 the gateway invokes the contract's `refundAll(id)`
(full refund to the buyer); for any other resolution it reads the trade via
`getTrade(id)` and invokes `resolveDispute(id, seller, amount)` with the
stored seller and current stored amount; on success it responds
`{ok: true, txHash}`. -/
theorem resolveDispute_dispatch_spec :
    ∀ (store : List Nat → Option TradeTuple) (tradeId : List Nat)
      (resolution : JSVal) (txHash : String) (id : List Nat)
      (call : ContractCall) (resp : HttpResponse),
    formatId tradeId = some id →
    resolveDisputeHandler store tradeId resolution txHash
      = some (call, resp) →
    (resolution = JSVal.num 1 → call = ContractCall.refundAll id) ∧
    (resolution ≠ JSVal.num 1 →
      call = ContractCall.resolveDispute id (chainGetTrade store id).seller
        (chainGetTrade store id).amount) ∧
    resp = { status := 200
             body := [("ok", .bool true), ("txHash", .str txHash)] } := by
  intro store tradeId resolution txHash id call resp hf hh
  simp only [resolveDisputeHandler, hf, Option.map_some', Option.some.injEq,
    Prod.mk.injEq] at hh
  obtain ⟨hcall, hresp⟩ := hh
  refine ⟨?_, ?_, hresp.symm⟩
  · intro h1
    rw [← hcall, resolveDisputeCallOf, if_pos h1]
  · intro h1
    rw [← hcall, resolveDisputeCallOf, if_neg h1]

/-- Witness for C1: resolution 1 on a concrete request invokes `refundAll`. -/
theorem resolveDispute_dispatch_spec_witness :
    (JSVal.num 1 = JSVal.num 1 →
      ContractCall.refundAll sampleId = ContractCall.refundAll sampleId) ∧
    (JSVal.num 1 ≠ JSVal.num 1 →
      ContractCall.refundAll sampleId
        = ContractCall.resolveDispute sampleId
            (chainGetTrade sampleStore sampleId).seller
            (chainGetTrade sampleStore sampleId).amount) ∧
    ({ status := 200
       body := [("ok", JSVal.bool true), ("txHash", JSVal.str "0xabc")] }
        : HttpResponse)
      = { status := 200
          body := [("ok", JSVal.bool true), ("txHash", JSVal.str "0xabc")] } :=
  resolveDispute_dispatch_spec sampleStore [116, 49] (JSVal.num 1) "0xabc"
    sampleId (ContractCall.refundAll sampleId)
    { status := 200
      body := [("ok", JSVal.bool true), ("txHash", JSVal.str "0xabc")] }
    (by decide) (by decide)

/-- C9: the dispatch compares `resolution` to 1 with strict equality: the
JSON string `"1"`, and any value other than the number 1, takes the
resolve-to-seller-for-current-amount branch, not the refund branch. -/
theorem resolution_strict_equality :
    ∀ (store : List Nat → Option TradeTuple) (id : List Nat) (v : JSVal),
    v ≠ JSVal.num 1 →
    resolveDisputeCallOf store id v
        = ContractCall.resolveDispute id (chainGetTrade store id).seller
            (chainGetTrade store id).amount ∧
    resolveDisputeCallOf store id (JSVal.str "1")
        = ContractCall.resolveDispute id (chainGetTrade store id).seller
            (chainGetTrade store id).amount := by
  intro store id v hv
  constructor
  · rw [resolveDisputeCallOf, if_neg hv]
  · rw [resolveDisputeCallOf, if_neg (by decide)]

/-- Witness for C9 at the string `"1"`. -/
theorem resolution_strict_equality_witness :
    resolveDisputeCallOf sampleStore sampleId (JSVal.str "1")
        = ContractCall.resolveDispute sampleId
            (chainGetTrade sampleStore sampleId).seller
            (chainGetTrade sampleStore sampleId).amount ∧
    resolveDisputeCallOf sampleStore sampleId (JSVal.str "1")
        = ContractCall.resolveDispute sampleId
            (chainGetTrade sampleStore sampleId).seller
            (chainGetTrade sampleStore sampleId).amount :=
  resolution_strict_equality sampleStore sampleId (JSVal.str "1") (by decide)

/-- C10: `POST /createTrade` substitutes the literal string `"N/A"` for an
absent or falsy `fileHash` (missing, empty string, null) before calling the
contract, and passes a non-empty `fileHash` through unchanged. -/
theorem createTrade_filehash_default :
    ∀ (tradeId : List Nat) (buyer priceETH fileHash : JSVal)
      (txHash : String) (id : List Nat) (ps : String) (wei : Nat),
    formatId tradeId = some id →
    jsToString priceETH = some ps →
    parseEther ps = some wei →
    (jsTruthy fileHash = false →
      createTradeHandler tradeId buyer priceETH fileHash txHash
        = some (ContractCall.createTrade id buyer wei (JSVal.str "N/A"),
            { status := 200
              body := [("ok", .bool true), ("txHash", .str txHash)] })) ∧
    (jsTruthy fileHash = true →
      createTradeHandler tradeId buyer priceETH fileHash txHash
        = some (ContractCall.createTrade id buyer wei fileHash,
            { status := 200
              body := [("ok", .bool true), ("txHash", .str txHash)] })) := by
  intro tradeId buyer priceETH fileHash txHash id ps wei hf hps hwei
  constructor
  · intro hfh
    simp [createTradeHandler, hf, hps, hwei, jsOr, hfh]
  · intro hfh
    simp [createTradeHandler, hf, hps, hwei, jsOr, hfh]

/-- Witness for C10: a request with no `fileHash` field (undefined) is
passed to the contract with contentRef `"N/A"`. -/
theorem createTrade_filehash_default_witness :
    (jsTruthy JSVal.undef = false →
      createTradeHandler [116, 49] (JSVal.str "0xB") (JSVal.str "1")
          JSVal.undef "0xtx"
        = some (ContractCall.createTrade sampleId (JSVal.str "0xB")
              1000000000000000000 (JSVal.str "N/A"),
            { status := 200
              body := [("ok", JSVal.bool true),
                       ("txHash", JSVal.str "0xtx")] })) ∧
    (jsTruthy JSVal.undef = true →
      createTradeHandler [116, 49] (JSVal.str "0xB") (JSVal.str "1")
          JSVal.undef "0xtx"
        = some (ContractCall.createTrade sampleId (JSVal.str "0xB")
              1000000000000000000 JSVal.undef,
            { status := 200
              body := [("ok", JSVal.bool true),
                       ("txHash", JSVal.str "0xtx")] })) :=
  createTrade_filehash_default [116, 49] (JSVal.str "0xB") (JSVal.str "1")
    JSVal.undef "0xtx" sampleId "1" 1000000000000000000
    (by decide) (by decide) (by decide)


/-- C2 counterexample: nonexistence is not signalled by a dedicated
"not found" signal — the deciding code tests the seller-sentinel.  At a
backend whose stored trade legitimately has the all-zero seller address,
the identifier exists (`store sampleId ≠ none`) yet the gateway answers
404, so "404 iff never created" fails. -/
theorem getTrade_notfound_sentinel_cex :
    formatId [116, 49] = some sampleId ∧
    zeroSellerStore sampleId ≠ none ∧
    (getTradeServer zeroSellerStore [116, 49]).status = 404 := by decide

/-- C2 amended: for a never-created identifier the gateway answers 404 with
`{ok: false, error}`, but nonexistence is decided by overloading the
zero-address sentinel: the response is 404 exactly when the returned
tuple's seller is the all-zero address. -/
theorem getTrade_notfound_amended :
    ∀ (store : List Nat → Option TradeTuple) (idParam id : List Nat),
    formatId idParam = some id →
    ((getTradeServer store idParam).status = 404 ↔
      (chainGetTrade store id).seller = zeroAddress) ∧
    (store id = none →
      getTradeServer store idParam =
        { status := 404
          body := [("ok", .bool false),
                   ("error", .str "查無此交易 ID，請確認是否輸入正確。")] }) := by
  intro store idParam id hf
  constructor
  · by_cases hz : (chainGetTrade store id).seller = zeroAddress
    · simp [getTradeServer, hf, hz]
    · simp [getTradeServer, hf, hz]
  · intro hn
    have hz : (chainGetTrade store id).seller = zeroAddress := by
      rw [chainGetTrade, hn]
      rfl
    simp [getTradeServer, hf, hz]

/-- Witness for C2 amended: the empty backend, a never-created id. -/
theorem getTrade_notfound_amended_witness :
    (((getTradeServer (fun _ => none) [116, 49]).status = 404 ↔
      (chainGetTrade (fun _ => none) sampleId).seller = zeroAddress)) ∧
    ((fun _ => none : List Nat → Option TradeTuple) sampleId = none →
      getTradeServer (fun _ => none) [116, 49] =
        { status := 404
          body := [("ok", .bool false),
                   ("error", .str "查無此交易 ID，請確認是否輸入正確。")] }) :=
  getTrade_notfound_amended (fun _ => none) [116, 49] sampleId (by decide)

/-- C3: at an existing trade (seller S, buyer B, amount 1000,
createdAt 1700000000, fileHash "h1", status Created), the named-access
variant populates every JSON field from the same-named tuple component,
while `server.js` populates `fileHash`, `status` and `createdAt` from
tuple positions 3, 4, 5 — which in ABI order hold `createdAt`, `fileHash`
and `status` — so its `fileHash` field is the numeric creation time, its
`status` field is `Number("h1")` (NaN), and its `createdAt` field is the
status ordinal rendered as a string. -/
theorem getTrade_field_population :
    getTradePart000 sampleStore [116, 49] =
      { status := 200
        body := [("ok", .bool true),
                 ("seller", .str "0x1111111111111111111111111111111111111111"),
                 ("buyer", .str "0x2222222222222222222222222222222222222222"),
                 ("amountETH", .str "0.000000000000001"),
                 ("fileHash", .str "h1"),
                 ("status", .num 0),
                 ("createdAt", .str "1700000000")] } ∧
    getTradeServer sampleStore [116, 49] =
      { status := 200
        body := [("ok", .bool true),
                 ("seller", .str "0x1111111111111111111111111111111111111111"),
                 ("buyer", .str "0x2222222222222222222222222222222222222222"),
                 ("amountETH", .str "0.000000000000001"),
                 ("fileHash", .num 1700000000),
                 ("status", .nan),
                 ("createdAt", .str "0")] } := by decide

/-- C4 counterexample: the two variants are not observably equivalent —
on the same backend answer their `GET /getTrade/:id` responses differ. -/
theorem getTrade_variants_cex :
    getTradeServer sampleStore [116, 49]
      ≠ getTradePart000 sampleStore [116, 49] := by decide

/-- C4 amended: given the same backend answers the two variants agree on
the response status code, and on an existing trade they agree on the `ok`,
`seller`, `buyer` and `amountETH` fields; they differ in the remaining
`GET /getTrade` fields, where `server.js` renders tuple positions 3, 4, 5
(`createdAt`, `fileHash`, `status`) and the unnamed variant the same-named
components (they also differ in failure-message strings). -/
theorem getTrade_variants_agreement_amended :
    ∀ (store : List Nat → Option TradeTuple) (idParam id : List Nat),
    formatId idParam = some id →
    (getTradeServer store idParam).status
        = (getTradePart000 store idParam).status ∧
    ((chainGetTrade store id).seller ≠ zeroAddress →
      ((getTradeServer store idParam).body.take 4
          = (getTradePart000 store idParam).body.take 4 ∧
       (getTradeServer store idParam).body.drop 4
          = [("fileHash", .num ((chainGetTrade store id).createdAt : Int)),
             ("status", jsNumberOf (.str (chainGetTrade store id).fileHash)),
             ("createdAt", .str (natStr (chainGetTrade store id).status))] ∧
       (getTradePart000 store idParam).body.drop 4
          = [("fileHash", .str (chainGetTrade store id).fileHash),
             ("status", jsNumberOf (.num ((chainGetTrade store id).status : Int))),
             ("createdAt", .str (natStr (chainGetTrade store id).createdAt))])) := by
  intro store idParam id hf
  by_cases hz : (chainGetTrade store id).seller = zeroAddress
  · refine ⟨by simp [getTradeServer, getTradePart000, hf, hz], fun h => absurd hz h⟩
  · refine ⟨by simp [getTradeServer, getTradePart000, hf, hz], fun _ => ?_⟩
    refine ⟨?_, ?_, ?_⟩ <;> simp [getTradeServer, getTradePart000, hf, hz]

/-- Witness for C4 amended at the sample backend and id. -/
theorem getTrade_variants_agreement_amended_witness :
    (getTradeServer sampleStore [116, 49]).status
        = (getTradePart000 sampleStore [116, 49]).status ∧
    ((chainGetTrade sampleStore sampleId).seller ≠ zeroAddress →
      ((getTradeServer sampleStore [116, 49]).body.take 4
          = (getTradePart000 sampleStore [116, 49]).body.take 4 ∧
       (getTradeServer sampleStore [116, 49]).body.drop 4
          = [("fileHash",
                .num ((chainGetTrade sampleStore sampleId).createdAt : Int)),
             ("status",
                jsNumberOf (.str (chainGetTrade sampleStore sampleId).fileHash)),
             ("createdAt",
                .str (natStr (chainGetTrade sampleStore sampleId).status))] ∧
       (getTradePart000 sampleStore [116, 49]).body.drop 4
          = [("fileHash", .str (chainGetTrade sampleStore sampleId).fileHash),
             ("status",
                jsNumberOf
                  (.num ((chainGetTrade sampleStore sampleId).status : Int))),
             ("createdAt",
                .str (natStr (chainGetTrade sampleStore sampleId).createdAt))])) :=
  getTrade_variants_agreement_amended sampleStore [116, 49] sampleId (by decide)

/-- C8 counterexample: a user-visible failure (the 404 for an unknown
trade) carries only `ok: false` and a human-readable message; no field
holds any of the seven machine-readable category names. -/
theorem error_taxonomy_cex :
    (getTradeServer (fun _ => none) [116, 49]).status = 404 ∧
    (getTradeServer (fun _ => none) [116, 49]).body.lookup "ok"
        = some (JSVal.bool false) ∧
    mentionsCategory (getTradeServer (fun _ => none) [116, 49]) = false := by
  decide

theorem bareFailure_catchResponse (msg : String) :
    bareFailure (catchResponse msg) :=
  ⟨rfl, rfl, rfl⟩

/-- C8 amended: on every endpoint of both variants, every user-visible
failure response is a bare 500 from the shared catch block (or the 404 of
`GET /getTrade`) whose body is exactly `ok: false` plus a free-form string
`error` message; no dedicated machine-readable category field exists — a
taxonomy category name appears only in the coincidence that the raw thrown
message itself equals one, and the fixed `GET /getTrade` failure strings
never do. -/
theorem error_responses_amended :
    (∀ msg : String, bareFailure (catchResponse msg) ∧
      mentionsCategory (catchResponse msg) = errorCategories.contains msg) ∧
    (∀ (tradeId : List Nat) (priceETH : JSVal) (txr : Except String String),
      (createTradeRoute tradeId priceETH txr).status ≠ 200 →
        bareFailure (createTradeRoute tradeId priceETH txr)) ∧
    (∀ (tradeId : List Nat) (priceETH : JSVal) (txr : Except String String),
      (depositRoute tradeId priceETH txr).status ≠ 200 →
        bareFailure (depositRoute tradeId priceETH txr)) ∧
    (∀ (tradeId : List Nat) (txr : Except String String),
      (confirmRoute tradeId txr).status ≠ 200 →
        bareFailure (confirmRoute tradeId txr)) ∧
    (∀ (tradeId : List Nat) (txr : Except String String),
      (disputeRoute tradeId txr).status ≠ 200 →
        bareFailure (disputeRoute tradeId txr)) ∧
    (∀ (tradeId : List Nat) (resolution : JSVal) (txr : Except String String),
      (resolveDisputeRoute tradeId resolution txr).status ≠ 200 →
        bareFailure (resolveDisputeRoute tradeId resolution txr)) ∧
    (∀ (store : List Nat → Option TradeTuple) (idParam : List Nat),
      ((getTradeServer store idParam).status ≠ 200 →
        bareFailure (getTradeServer store idParam) ∧
        mentionsCategory (getTradeServer store idParam) = false) ∧
      ((getTradePart000 store idParam).status ≠ 200 →
        bareFailure (getTradePart000 store idParam) ∧
        mentionsCategory (getTradePart000 store idParam) = false)) := by
  refine ⟨?_, ?_, ?_, ?_, ?_, ?_, ?_⟩
  · intro msg
    refine ⟨bareFailure_catchResponse msg, ?_⟩
    simp [mentionsCategory, catchResponse]
  · intro tradeId priceETH txr h
    cases hf : formatId tradeId with
    | none =>
      simp only [createTradeRoute, hf]
      exact bareFailure_catchResponse _
    | some id =>
      cases hp : jsToString priceETH with
      | none =>
        simp only [createTradeRoute, hf, hp]
        exact bareFailure_catchResponse _
      | some ps =>
        cases hw : parseEther ps with
        | none =>
          simp only [createTradeRoute, hf, hp, hw]
          exact bareFailure_catchResponse _
        | some wei =>
          cases txr with
          | error m =>
            simp only [createTradeRoute, hf, hp, hw]
            exact bareFailure_catchResponse _
          | ok h2 =>
            exfalso
            apply h
            simp [createTradeRoute, hf, hp, hw, txSuccessResponse]
  · intro tradeId priceETH txr h
    cases hf : formatId tradeId with
    | none =>
      simp only [depositRoute, hf]
      exact bareFailure_catchResponse _
    | some id =>
      cases hp : jsToString priceETH with
      | none =>
        simp only [depositRoute, hf, hp]
        exact bareFailure_catchResponse _
      | some ps =>
        cases hw : parseEther ps with
        | none =>
          simp only [depositRoute, hf, hp, hw]
          exact bareFailure_catchResponse _
        | some wei =>
          cases txr with
          | error m =>
            simp only [depositRoute, hf, hp, hw]
            exact bareFailure_catchResponse _
          | ok h2 =>
            exfalso
            apply h
            simp [depositRoute, hf, hp, hw, txSuccessResponse]
  · intro tradeId txr h
    cases hf : formatId tradeId with
    | none =>
      simp only [confirmRoute, hf]
      exact bareFailure_catchResponse _
    | some id =>
      cases txr with
      | error m =>
        simp only [confirmRoute, hf]
        exact bareFailure_catchResponse _
      | ok h2 =>
        exfalso
        apply h
        simp [confirmRoute, hf, txSuccessResponse]
  · intro tradeId txr h
    cases hf : formatId tradeId with
    | none =>
      simp only [disputeRoute, hf]
      exact bareFailure_catchResponse _
    | some id =>
      cases txr with
      | error m =>
        simp only [disputeRoute, hf]
        exact bareFailure_catchResponse _
      | ok h2 =>
        exfalso
        apply h
        simp [disputeRoute, hf, txSuccessResponse]
  · intro tradeId resolution txr h
    cases hf : formatId tradeId with
    | none =>
      simp only [resolveDisputeRoute, hf]
      exact bareFailure_catchResponse _
    | some id =>
      cases txr with
      | error m =>
        simp only [resolveDisputeRoute, hf]
        exact bareFailure_catchResponse _
      | ok h2 =>
        exfalso
        apply h
        simp [resolveDisputeRoute, hf, txSuccessResponse]
  · intro store idParam
    constructor
    · intro hs
      cases hf : formatId idParam with
      | none =>
        simp only [getTradeServer, hf]
        exact ⟨⟨rfl, rfl, rfl⟩, by decide⟩
      | some id =>
        by_cases hz : (chainGetTrade store id).seller = zeroAddress
        · simp only [getTradeServer, hf, hz, if_pos]
          exact ⟨⟨rfl, rfl, rfl⟩, by decide⟩
        · exfalso
          apply hs
          simp [getTradeServer, hf, hz]
    · intro hs
      cases hf : formatId idParam with
      | none =>
        simp only [getTradePart000, hf]
        exact ⟨⟨rfl, rfl, rfl⟩, by decide⟩
      | some id =>
        by_cases hz : (chainGetTrade store id).seller = zeroAddress
        · simp only [getTradePart000, hf, hz, if_pos]
          exact ⟨⟨rfl, rfl, rfl⟩, by decide⟩
        · exfalso
          apply hs
          simp [getTradePart000, hf, hz]

/-- Witness for C8 amended: a concrete reverted `POST /createTrade`
transaction and a `GET /getTrade` on a never-created id. -/
theorem error_responses_amended_witness :
    bareFailure (createTradeRoute [116, 49] (JSVal.str "1")
        (Except.error "execution reverted")) ∧
    bareFailure (getTradeServer (fun _ => none) [116, 49]) ∧
    mentionsCategory (getTradeServer (fun _ => none) [116, 49]) = false :=
  ⟨error_responses_amended.2.1 [116, 49] (JSVal.str "1")
      (Except.error "execution reverted") (by decide),
   ((error_responses_amended.2.2.2.2.2.2 (fun _ => none) [116, 49]).1
      (by decide)).1,
   ((error_responses_amended.2.2.2.2.2.2 (fun _ => none) [116, 49]).1
      (by decide)).2⟩

end EscrowGateway






